import Mathlib

/-!
Verification of the Querybook excerpt: the `SearchAndReplace` state hook
(`src/datahub/webapp/components/SearchAndReplace/SearchAndReplace.tsx`) and the
`CreateDataTableTag` widget.

The TypeScript code is shallowly embedded: the component state becomes a Lean
structure, each handler becomes a pure function from state to state, and the
host-visible side effects (calls to `jumpToResult`, `replace`, promise
resolution) are returned as an explicit event list.  JavaScript numbers that
can go negative (`currentSearchResultIndex` after `moveResultIndex`) are
modelled as `Int`, with the JS `%` operator (sign of the dividend) modelled
explicitly as `jsMod`.
-/

namespace SearchAndReplace

/-- `ISearchOptions` from `const/searchAndReplace`: `{ matchCase, useRegex }`. -/
structure ISearchOptions where
  matchCase : Bool
  useRegex : Bool
deriving DecidableEq, Repr

/-- `ISearchAndReplaceState`, the value held by `useState` in
`useSearchAndReplace`.  Match records are opaque to the component, hence the
type parameter `α`.  The index is an `Int` because the JS arithmetic in
`moveResultIndex` can produce negative values. -/
structure SearchState (α : Type) where
  searchString : String
  replaceString : String
  searchResults : List α
  currentSearchResultIndex : Int
  searchOptions : ISearchOptions
deriving DecidableEq, Repr

/-- `initialSearchState` (SearchAndReplace.tsx lines 27-36). -/
def initialSearchState {α : Type} : SearchState α :=
  { searchString := ""
    replaceString := ""
    searchResults := []
    currentSearchResultIndex := 0
    searchOptions := { matchCase := false, useRegex := false } }

/-- The host-supplied props of `ISearchAndReplaceProps` that the hook reads:
`getSearchResults` (pure, synchronous) and whether the optional `jumpToResult`
callback was supplied at all (`jumpToResult?:` in the props interface). -/
structure Host (α : Type) where
  getSearchResults : String → ISearchOptions → List α
  hasJumpToResult : Bool

/-- Host-visible effects of one operation, in program order.
`jumpAttempt present arg` records a call of the form `jumpToResult(arg)`;
`present = false` means the optional callback was absent, so the call site is
a call to `undefined` (a TypeError in JS).  `arg = none` models passing the
out-of-range access `searchResults[i]`, i.e. `undefined`, to the callback. -/
inductive Event (α : Type) where
  | jumpAttempt (callbackPresent : Bool) (arg : Option α)
  | focusSearchBar
  | hostReplace (targets : List (Option α)) (text : String)
  | promiseResolve
deriving DecidableEq, Repr

/-- JS array indexing `l[i]`: `undefined` (`none`) when out of range,
including every negative index. -/
def jsIndex {α : Type} (l : List α) (i : Int) : Option α :=
  if i < 0 then none else l.get? i.toNat

/-- JS remainder `a % b` for `b > 0`: magnitude of Euclidean remainder, sign
of the dividend. -/
def jsMod (a b : Int) : Int :=
  if a < 0 then -((-a) % b) else a % b

/-- `performSearch(isActiveSearch)` (lines 66-87): recompute `searchResults`
from the current query and options; when active, call
`jumpToResult(searchResults[currentSearchResultIndex])` unguarded — the code
does not check that `jumpToResult` was supplied nor that the index is in
range — and schedule `focusSearchBar` after it resolves. -/
def performSearch {α : Type} (host : Host α) (isActiveSearch : Bool)
    (s : SearchState α) : SearchState α × List (Event α) :=
  let searchResults := host.getSearchResults s.searchString s.searchOptions
  let events :=
    if isActiveSearch then
      if host.hasJumpToResult then
        [Event.jumpAttempt true (jsIndex searchResults s.currentSearchResultIndex),
         Event.focusSearchBar]
      else
        [Event.jumpAttempt false (jsIndex searchResults s.currentSearchResultIndex)]
    else []
  ({ s with searchResults := searchResults }, events)

/-- `onSearchStringChange` (lines 88-94). -/
def onSearchStringChange {α : Type} (searchString : String)
    (s : SearchState α) : SearchState α :=
  { s with searchString := searchString, currentSearchResultIndex := 0 }

/-- `onSearchOptionsChange` (lines 95-104). -/
def onSearchOptionsChange {α : Type} (searchOptions : ISearchOptions)
    (s : SearchState α) : SearchState α :=
  { s with searchOptions := searchOptions, currentSearchResultIndex := 0 }

/-- `onReplaceStringChange` (lines 105-110). -/
def onReplaceStringChange {α : Type} (replaceString : String)
    (s : SearchState α) : SearchState α :=
  { s with replaceString := replaceString }

/-- `reset` (line 65): `setSearchState(initialSearchState)`. -/
def reset {α : Type} (_s : SearchState α) : SearchState α :=
  initialSearchState

/-- `moveResultIndex(delta)` (lines 112-142).  Zero results: resolve and leave
the state unchanged.  Otherwise compute
`newIndex = ((newIndex < 0 ? newIndex + resultLen : newIndex) % resultLen)`
with JS `%`, jump to `searchResults[newIndex]` only if the callback is
present (resolving after it), and store the new index. -/
def moveResultIndex {α : Type} (host : Host α) (delta : Int)
    (s : SearchState α) : SearchState α × List (Event α) :=
  let resultLen : Int := s.searchResults.length
  if resultLen = 0 then
    (s, [Event.promiseResolve])
  else
    let currIndex := s.currentSearchResultIndex
    let newIndex0 := currIndex + delta
    let newIndex := jsMod (if newIndex0 < 0 then newIndex0 + resultLen else newIndex0) resultLen
    let events :=
      if host.hasJumpToResult then
        [Event.jumpAttempt true (jsIndex s.searchResults newIndex),
         Event.promiseResolve]
      else
        [Event.promiseResolve]
    ({ s with currentSearchResultIndex := newIndex }, events)

/-- `onReplace(all)` (lines 144-174): `all = true` replaces the whole result
list in one host call and leaves the state untouched; `all = false` replaces
`[searchResults[currentSearchResultIndex]]` and, exactly when that index is
`length - 1`, runs `moveResultIndex(1)`. -/
def onReplace {α : Type} (host : Host α) (all : Bool)
    (s : SearchState α) : SearchState α × List (Event α) :=
  if all then
    (s, [Event.hostReplace (s.searchResults.map some) s.replaceString])
  else
    let ev := Event.hostReplace [jsIndex s.searchResults s.currentSearchResultIndex]
      s.replaceString
    if s.currentSearchResultIndex = (s.searchResults.length : Int) - 1 then
      let r := moveResultIndex host 1 s
      (r.1, ev :: r.2)
    else
      (s, [ev])

/-- The `useEffect` at lines 176-178: it fires exactly when one of its
dependencies `searchState.searchString`, `searchState.searchOptions` changed,
and then runs `performSearch(true)` — note the literal `true` in the source.
Returns the final state, the list of `isActiveSearch` flags of the searches
the effect triggered, and the events they emitted. -/
def searchRetrigger {α : Type} (host : Host α) (old new : SearchState α) :
    SearchState α × List Bool × List (Event α) :=
  if old.searchString ≠ new.searchString ∨ old.searchOptions ≠ new.searchOptions then
    let r := performSearch host true new
    (r.1, [true], r.2)
  else
    (new, [], [])

/-- Is the event a call (attempted or real) to `jumpToResult`? -/
def Event.isJumpAttempt {α : Type} : Event α → Bool
  | .jumpAttempt _ _ => true
  | _ => false

/-- Is the event a call to the host `replace` function? -/
def Event.isHostReplace {α : Type} : Event α → Bool
  | .hostReplace _ _ => true
  | _ => false

/-- The documented index invariant: `0 <= index < max(1, length)`. -/
def indexInvariant {α : Type} (s : SearchState α) : Prop :=
  0 ≤ s.currentSearchResultIndex ∧
    s.currentSearchResultIndex < max 1 (s.searchResults.length : Int)

instance {α : Type} (s : SearchState α) : Decidable (indexInvariant s) := by
  unfold indexInvariant; infer_instance

/-- One operation of the search-and-replace state, as listed by the spec. -/
inductive Op (α : Type) where
  | performSearch (isActiveSearch : Bool)
  | searchStringChange (str : String)
  | searchOptionsChange (opts : ISearchOptions)
  | replaceStringChange (str : String)
  | moveResultIndex (delta : Int)
  | onReplace (all : Bool)
  | reset

/-- Dispatch one operation, returning the new state and its events. -/
def step {α : Type} (host : Host α) (op : Op α) (s : SearchState α) :
    SearchState α × List (Event α) :=
  match op with
  | .performSearch active => performSearch host active s
  | .searchStringChange str => (onSearchStringChange str s, [])
  | .searchOptionsChange opts => (onSearchOptionsChange opts s, [])
  | .replaceStringChange str => (onReplaceStringChange str s, [])
  | .moveResultIndex delta => moveResultIndex host delta s
  | .onReplace all => onReplace host all s
  | .reset => (reset s, [])

end SearchAndReplace

namespace CreateDataTableTag

/-- `ITag` from `const/tag`, restricted to the field this widget reads. -/
structure ITag where
  name : String
deriving DecidableEq, Repr

/-- `existingTags` (`(tags || []).map((tag) => tag.name)`). -/
def existingTags (tags : List ITag) : List String :=
  tags.map (fun tag => tag.name)

/-- The character class `[a-z0-9]` under the `i` flag of the regex literal
`/^[a-z0-9]{1,255}$/i`: an ASCII lowercase letter (the literal `[a-z]`
range), an ASCII uppercase letter (the class closed under case by the `i`
flag), or an ASCII digit (`[0-9]`). -/
def tagChar (c : Char) : Bool :=
  (('a' ≤ c) && (c ≤ 'z')) || (('A' ≤ c) && (c ≤ 'Z')) || (('0' ≤ c) && (c ≤ '9'))

/-- `val.match(/^[a-z0-9]{1,255}$/i) !== null`: anchored at both ends, the
string is 1 to 255 repetitions of the class `[a-z0-9]` (case-insensitive). -/
def tagRegexTest (val : String) : Bool :=
  decide (1 ≤ val.length) && decide (val.length ≤ 255) && val.data.all tagChar

/-- `isValidCheck` (CreateDataTableTag, lines 35-42):
`Boolean(match && !existingTags.includes(val))`. -/
def isValidCheck (existingTags : List String) (val : String) : Bool :=
  tagRegexTest val && !(existingTags.contains val)

/-- Success or failure of the dispatched `createTableTag` thunk. -/
inductive TagOutcome where
  | success
  | failure
deriving DecidableEq, Repr

/-- The one host-visible effect of the widget: the creation request
dispatched by `createTag`. -/
inductive TagEvent where
  | createTagRequest (tableId : Int) (tag : String)
deriving DecidableEq, Repr

/-- `handleCreateTag` (lines 44-49):
`createTag(val).finally(() => setShowSelect(false))`.  Takes the prior
`showSelect` state and the eventual outcome of the request, and returns the
`showSelect` value once the request settles together with the dispatched
events.  `.finally` runs its handler on success and failure alike, so the
outcome is never inspected. -/
def handleCreateTag (tableId : Int) (val : String) (_outcome : TagOutcome)
    (_showSelect : Bool) : Bool × List TagEvent :=
  (false, [TagEvent.createTagRequest tableId val])

end CreateDataTableTag

namespace SearchAndReplace

/-! Concrete fixtures used by counterexamples and witnesses. -/

/-- A host whose search always finds three matches and that supplies a
`jumpToResult` callback. -/
def hostThree : Host Nat :=
  { getSearchResults := fun _ _ => [10, 20, 30], hasJumpToResult := true }

/-- A host whose search finds no matches. -/
def hostEmpty : Host Nat :=
  { getSearchResults := fun _ _ => [], hasJumpToResult := true }

/-- A state with query `"foo"`, three matches, index 0. -/
def stateFoo : SearchState Nat :=
  { searchString := "foo"
    replaceString := "bar"
    searchResults := [10, 20, 30]
    currentSearchResultIndex := 0
    searchOptions := { matchCase := false, useRegex := false } }

/-- `stateFoo` with the index on the last match. -/
def stateFooLast : SearchState Nat :=
  { stateFoo with currentSearchResultIndex := 2 }

/-- `stateFoo` with an empty result list. -/
def stateNoResults : SearchState Nat :=
  { stateFoo with searchResults := [] }

/-! Helper lemmas shared by several developments. -/

/-- On a non-negative dividend the JS remainder agrees with the Euclidean
remainder. -/
theorem jsMod_eq_emod_of_nonneg (a b : Int) (h : 0 ≤ a) : jsMod a b = a % b := by
  unfold jsMod
  rw [if_neg (not_lt.mpr h)]

/-- As long as the raw sum `currentSearchResultIndex + delta` is at least
`-resultLen`, the single wrap adjustment in `moveResultIndex` produces the
mathematical (Euclidean) remainder. -/
theorem moveResultIndex_index_emod {α : Type} (host : Host α) (delta : Int)
    (s : SearchState α) (hlen : 0 < s.searchResults.length)
    (hdelta : -(s.searchResults.length : Int) ≤ s.currentSearchResultIndex + delta) :
    (moveResultIndex host delta s).1.currentSearchResultIndex =
      (s.currentSearchResultIndex + delta) % (s.searchResults.length : Int) := by
  have hlenI : (0 : Int) < (s.searchResults.length : Int) := by exact_mod_cast hlen
  unfold moveResultIndex
  rw [if_neg hlenI.ne']
  show jsMod
      (if s.currentSearchResultIndex + delta < 0
        then s.currentSearchResultIndex + delta + (s.searchResults.length : Int)
        else s.currentSearchResultIndex + delta) (s.searchResults.length : Int) = _
  rcases lt_or_ge (s.currentSearchResultIndex + delta) 0 with hneg | hpos
  · rw [if_pos hneg, jsMod_eq_emod_of_nonneg _ _ (by omega)]
    simp [Int.add_mul_emod_self_left
      (a := s.currentSearchResultIndex + delta)
      (b := (s.searchResults.length : Int)) (c := 1)]
  · rw [if_neg (not_lt.mpr hpos), jsMod_eq_emod_of_nonneg _ _ hpos]

/-- With a non-empty result list and a raw sum not below `-resultLen`, the
index stored by `moveResultIndex` satisfies the documented bounds. -/
theorem moveResultIndex_index_bounds {α : Type} (host : Host α) (delta : Int)
    (s : SearchState α) (hlen : 0 < s.searchResults.length)
    (hdelta : -(s.searchResults.length : Int) ≤ s.currentSearchResultIndex + delta) :
    0 ≤ (moveResultIndex host delta s).1.currentSearchResultIndex ∧
      (moveResultIndex host delta s).1.currentSearchResultIndex <
        (s.searchResults.length : Int) := by
  have hlenI : (0 : Int) < (s.searchResults.length : Int) := by exact_mod_cast hlen
  rw [moveResultIndex_index_emod host delta s hlen hdelta]
  exact ⟨Int.emod_nonneg _ hlenI.ne', Int.emod_lt_of_pos _ hlenI⟩

/-- `moveResultIndex` never touches any field other than the index. -/
theorem moveResultIndex_frame {α : Type} (host : Host α) (delta : Int)
    (s : SearchState α) :
    (moveResultIndex host delta s).1.searchString = s.searchString ∧
      (moveResultIndex host delta s).1.replaceString = s.replaceString ∧
      (moveResultIndex host delta s).1.searchResults = s.searchResults ∧
      (moveResultIndex host delta s).1.searchOptions = s.searchOptions := by
  unfold moveResultIndex
  rcases eq_or_ne (s.searchResults.length : Int) 0 with h | h
  · rw [if_pos h]; exact ⟨rfl, rfl, rfl, rfl⟩
  · rw [if_neg h]; exact ⟨rfl, rfl, rfl, rfl⟩

/-! ### C8 — `reset` restores the documented initial values. -/

/-- C8: for every prior state, `reset()` restores every field of the
search-and-replace state to its documented initial value: empty search and
replace strings, empty result list, index 0, and options
`{ matchCase: false, useRegex: false }`. -/
theorem reset_restores_initial_values {α : Type} (s : SearchState α) :
    (reset s).searchString = "" ∧
      (reset s).replaceString = "" ∧
      (reset s).searchResults = [] ∧
      (reset s).currentSearchResultIndex = 0 ∧
      (reset s).searchOptions = { matchCase := false, useRegex := false } :=
  ⟨rfl, rfl, rfl, rfl, rfl⟩

/-! ### C7 — `moveResultIndex` on an empty result list. -/

/-- C7: when `searchResults` is empty, `moveResultIndex(delta)` leaves the
whole state unchanged for every delta, resolves its promise, and never calls
the navigation callback. -/
theorem moveResultIndex_empty_noop {α : Type} (host : Host α) (delta : Int)
    (s : SearchState α) (h : s.searchResults = []) :
    moveResultIndex host delta s = (s, [Event.promiseResolve]) ∧
      ((moveResultIndex host delta s).2.filter Event.isJumpAttempt) = [] := by
  have hlen : (s.searchResults.length : Int) = 0 := by
    rw [h]; rfl
  constructor
  · unfold moveResultIndex
    rw [if_pos hlen]
  · unfold moveResultIndex
    rw [if_pos hlen]
    rfl

/-- Witness for C7 at a concrete empty-result state and `delta = 1`. -/
theorem moveResultIndex_empty_noop_witness :
    (moveResultIndex hostThree 1 stateNoResults =
      (stateNoResults, [Event.promiseResolve]) ∧
      ((moveResultIndex hostThree 1 stateNoResults).2.filter Event.isJumpAttempt) = []) :=
  moveResultIndex_empty_noop hostThree 1 stateNoResults (by decide)

/-! ### C10 — `onReplaceStringChange` is frame-preserving. -/

/-- C10: `onReplaceStringChange(r)` updates only `replaceString`; the query,
the results, the index and the options are untouched, and the search
re-trigger effect does not fire (no search is re-run). -/
theorem onReplaceStringChange_frame {α : Type} (host : Host α)
    (s : SearchState α) (r : String) :
    (onReplaceStringChange r s).replaceString = r ∧
      (onReplaceStringChange r s).searchString = s.searchString ∧
      (onReplaceStringChange r s).searchResults = s.searchResults ∧
      (onReplaceStringChange r s).currentSearchResultIndex =
        s.currentSearchResultIndex ∧
      (onReplaceStringChange r s).searchOptions = s.searchOptions ∧
      searchRetrigger host s (onReplaceStringChange r s) =
        (onReplaceStringChange r s, [], []) := by
  refine ⟨rfl, rfl, rfl, rfl, rfl, ?_⟩
  unfold searchRetrigger
  rw [if_neg]
  simp [onReplaceStringChange]

/-! ### C4 — the active-search navigation call is unguarded. -/

/-- C4: `performSearch(true)` always issues exactly one call of the form
`jumpToResult(searchResults[currentSearchResultIndex])`: its argument is the
(possibly `undefined`, i.e. `none`) element of the freshly computed result
list at the current index — in particular `none` whenever that list is empty
— and the call happens even when no `jumpToResult` callback was supplied
(`callbackPresent = false`, a call to an absent function); by contrast the
guarded branch of `moveResultIndex` issues no call at all when the callback
is absent. -/
theorem performSearch_active_jump_unguarded {α : Type} (host : Host α)
    (s : SearchState α) :
    ((performSearch host true s).2.filter Event.isJumpAttempt =
        [Event.jumpAttempt host.hasJumpToResult
          (jsIndex (host.getSearchResults s.searchString s.searchOptions)
            s.currentSearchResultIndex)]) ∧
      jsIndex ([] : List α) s.currentSearchResultIndex = none ∧
      (∀ delta : Int,
        (moveResultIndex { host with hasJumpToResult := false } delta s).2.filter
          Event.isJumpAttempt = []) := by
  refine ⟨?_, ?_, ?_⟩
  · cases h : host.hasJumpToResult <;>
      simp [performSearch, Event.isJumpAttempt, h]
  · unfold jsIndex
    rcases lt_or_ge s.currentSearchResultIndex 0 with h | h
    · rw [if_pos h]
    · rw [if_neg (not_lt.mpr h)]
      exact List.get?_eq_none.mpr (Nat.zero_le _)
  · intro delta
    unfold moveResultIndex
    rcases eq_or_ne (s.searchResults.length : Int) 0 with h | h
    · rw [if_pos h]; rfl
    · rw [if_neg h]; rfl

end SearchAndReplace

namespace CreateDataTableTag

/-! ### C9 — tag creation settles identically on success and failure. -/

/-- C9: once a tag entry is accepted, `handleCreateTag` issues exactly one
creation request for `(tableId, val)` and the input collapses
(`showSelect = false`) when the request settles — identically on the success
and on the failure path, the outcome never being inspected. -/
theorem handleCreateTag_settles_identically (tags : List String)
    (tableId : Int) (val : String) (showSelect : Bool)
    (_haccept : isValidCheck tags val = true) :
    (handleCreateTag tableId val TagOutcome.success showSelect =
        handleCreateTag tableId val TagOutcome.failure showSelect) ∧
      (∀ outcome : TagOutcome,
        (handleCreateTag tableId val outcome showSelect).1 = false ∧
          (handleCreateTag tableId val outcome showSelect).2 =
            [TagEvent.createTagRequest tableId val]) :=
  ⟨rfl, fun _ => ⟨rfl, rfl⟩⟩

/-- Witness for C9: the accepted entry `"tag1"` on table 7 with no existing
tags. -/
theorem handleCreateTag_settles_identically_witness :
    (handleCreateTag 7 "tag1" TagOutcome.success true =
        handleCreateTag 7 "tag1" TagOutcome.failure true) ∧
      (∀ outcome : TagOutcome,
        (handleCreateTag 7 "tag1" outcome true).1 = false ∧
          (handleCreateTag 7 "tag1" outcome true).2 =
            [TagEvent.createTagRequest 7 "tag1"]) :=
  handleCreateTag_settles_identically [] 7 "tag1" true (by decide)

/-! ### C6 — the tag validator. -/

/-- The regex class `[a-z0-9]` with the `i` flag accepts exactly the ASCII
alphanumeric characters. -/
theorem tagChar_eq_isAlphanum (c : Char) : tagChar c = c.isAlphanum := by
  have ha : Char.val 'a' = 97 := by decide
  have hz : Char.val 'z' = 122 := by decide
  have hA : Char.val 'A' = 65 := by decide
  have hZ : Char.val 'Z' = 90 := by decide
  have h0 : Char.val '0' = 48 := by decide
  have h9 : Char.val '9' = 57 := by decide
  simp [tagChar, Char.isAlphanum, Char.isAlpha, Char.isDigit, Char.isUpper,
    Char.isLower, Char.le_def, ha, hz, hA, hZ, h0, h9]
  ac_rfl

/-- C6: `isValidCheck` accepts a candidate string exactly when it is 1 to 255
alphanumeric characters (the case-insensitive pattern `^[a-z0-9]{1,255}$`)
and is not already a member — by case-sensitive exact comparison — of the
existing tag name list; every other input is rejected (the predicate is total
and simply returns `false`). -/
theorem isValidCheck_spec (tags : List String) (val : String) :
    isValidCheck tags val = true ↔
      (1 ≤ val.length ∧ val.length ≤ 255 ∧
        (∀ c ∈ val.data, c.isAlphanum = true) ∧ val ∉ tags) := by
  simp [isValidCheck, tagRegexTest, tagChar_eq_isAlphanum, List.all_eq_true,
    and_assoc]

end CreateDataTableTag

namespace SearchAndReplace

/-! ### C1 — what the dependency effect actually re-triggers. -/

/-- C1 is refuted at a concrete input: after `onSearchStringChange "a"` from
the initial "foo" state, the dependency effect re-runs exactly one search,
but that search is `performSearch(true)` — an active search (flag list
`[true]`, not `[false]`) — and it does request navigation: the emitted events
contain a `jumpToResult` call. -/
theorem searchStringChange_passive_counterexample :
    (searchRetrigger hostThree stateFoo (onSearchStringChange "a" stateFoo)).2.1 =
        [true] ∧
      (searchRetrigger hostThree stateFoo
          (onSearchStringChange "a" stateFoo)).2.1 ≠ [false] ∧
      ((searchRetrigger hostThree stateFoo
          (onSearchStringChange "a" stateFoo)).2.2.filter Event.isJumpAttempt ≠ []) := by
  decide

/-- C1 (amended): for every change of `searchString` or `searchOptions` to a
new value, the handler resets `currentSearchResultIndex` to 0 and the
dependency effect re-triggers exactly one search — but that search is an
active one (`performSearch` with `isActiveSearch = true`), so navigation to
the current match is requested by these changes. -/
theorem searchChange_resets_index_retriggers_active {α : Type} (host : Host α)
    (s : SearchState α) (str : String) (opts : ISearchOptions)
    (hstr : str ≠ s.searchString) (hopts : opts ≠ s.searchOptions) :
    ((onSearchStringChange str s).currentSearchResultIndex = 0 ∧
      (searchRetrigger host s (onSearchStringChange str s)).2.1 = [true]) ∧
    ((onSearchOptionsChange opts s).currentSearchResultIndex = 0 ∧
      (searchRetrigger host s (onSearchOptionsChange opts s)).2.1 = [true]) := by
  constructor
  · refine ⟨rfl, ?_⟩
    have h : s.searchString ≠ (onSearchStringChange str s).searchString := by
      simpa [onSearchStringChange] using hstr.symm
    unfold searchRetrigger
    rw [if_pos (Or.inl h)]
  · refine ⟨rfl, ?_⟩
    have h : s.searchOptions ≠ (onSearchOptionsChange opts s).searchOptions := by
      simpa [onSearchOptionsChange] using hopts.symm
    unfold searchRetrigger
    rw [if_pos (Or.inr h)]

/-- Witness for the amended C1 at the concrete "foo" state. -/
theorem searchChange_resets_index_retriggers_active_witness :
    (((onSearchStringChange "a" stateFoo).currentSearchResultIndex = 0 ∧
      (searchRetrigger hostThree stateFoo (onSearchStringChange "a" stateFoo)).2.1 =
        [true]) ∧
    ((onSearchOptionsChange { matchCase := true, useRegex := false }
        stateFoo).currentSearchResultIndex = 0 ∧
      (searchRetrigger hostThree stateFoo
        (onSearchOptionsChange { matchCase := true, useRegex := false }
          stateFoo)).2.1 = [true])) :=
  searchChange_resets_index_retriggers_active hostThree stateFoo "a"
    { matchCase := true, useRegex := false } (by decide) (by decide)

/-! ### C2 — `moveResultIndex` and the mathematical modulus. -/

/-- C2 is refuted at a concrete input satisfying all its premises: in the
"foo" state (3 results, index 0), `moveResultIndex(-4)` stores the index
`-1`, while the mathematical `(0 + (-4)) mod 3` is `2` — the single
positive-wrapping adjustment is not enough for raw sums below
`-resultCount`. -/
theorem moveResultIndex_math_mod_counterexample :
    (0 < stateFoo.searchResults.length ∧
      0 ≤ stateFoo.currentSearchResultIndex ∧
      stateFoo.currentSearchResultIndex < (stateFoo.searchResults.length : Int)) ∧
    (moveResultIndex hostThree (-4) stateFoo).1.currentSearchResultIndex = -1 ∧
    (stateFoo.currentSearchResultIndex + (-4)) %
        (stateFoo.searchResults.length : Int) = 2 := by
  decide

/-- C2 (amended): under the claim premises and the additional bound
`currentSearchResultIndex + delta ≥ -resultCount` (one wrap adjustment
suffices; it covers every delta down to `-1 - currentSearchResultIndex` and
beyond, in particular `delta = -1` from index 0), `moveResultIndex(delta)`
stores exactly the mathematical non-negative remainder
`(currentSearchResultIndex + delta) mod resultCount`. -/
theorem moveResultIndex_math_mod {α : Type} (host : Host α) (delta : Int)
    (s : SearchState α) (hlen : 0 < s.searchResults.length)
    (_h0 : 0 ≤ s.currentSearchResultIndex)
    (_hlt : s.currentSearchResultIndex < (s.searchResults.length : Int))
    (hdelta : -(s.searchResults.length : Int) ≤ s.currentSearchResultIndex + delta) :
    (moveResultIndex host delta s).1.currentSearchResultIndex =
      (s.currentSearchResultIndex + delta) % (s.searchResults.length : Int) :=
  moveResultIndex_index_emod host delta s hlen hdelta

/-- Witness for the amended C2: `moveResultIndex(-1)` from index 0 in the
3-element "foo" state yields index `L - 1 = 2`. -/
theorem moveResultIndex_math_mod_witness :
    (moveResultIndex hostThree (-1) stateFoo).1.currentSearchResultIndex = 2 := by
  rw [moveResultIndex_math_mod hostThree (-1) stateFoo (by decide) (by decide)
    (by decide) (by decide)]
  decide

/-! ### C3 — the index invariant. -/

/-- The side conditions under which the amended C3 holds: `performSearch`
must not be run while the current index falls outside the freshly computed
result list (the code stores the new list without clamping the old index),
and `moveResultIndex` must not be given a delta whose raw sum falls below
`-resultCount` (the code applies only one wrap adjustment).  Every other
operation is unconditional. -/
def opSafe {α : Type} (host : Host α) (op : Op α) (s : SearchState α) : Prop :=
  match op with
  | .performSearch _ =>
      s.currentSearchResultIndex <
        max 1 ((host.getSearchResults s.searchString s.searchOptions).length : Int)
  | .moveResultIndex delta =>
      -(s.searchResults.length : Int) ≤ s.currentSearchResultIndex + delta
  | _ => True

instance {α : Type} (host : Host α) (op : Op α) (s : SearchState α) :
    Decidable (opSafe host op s) := by
  cases op <;> unfold opSafe <;> infer_instance

/-- The invariant holds in the documented initial state. -/
theorem indexInvariant_initial {α : Type} :
    indexInvariant (initialSearchState (α := α)) := by
  unfold indexInvariant initialSearchState
  norm_num

/-- C3 is refuted at a concrete input: the "foo" state with the index on the
last of three matches satisfies the invariant, yet a single (even passive)
`performSearch` against a host whose fresh search returns no matches keeps
the stale index 2, violating `0 ≤ index < max(1, length)`. -/
theorem indexInvariant_counterexample :
    indexInvariant stateFooLast ∧
      ¬ indexInvariant (performSearch hostEmpty false stateFooLast).1 := by
  decide

/-- C3 (amended): the invariant `0 ≤ currentSearchResultIndex <
max(1, length searchResults)` holds in the initial state and is preserved by
every operation of the search-and-replace state, provided `performSearch` is
not run while the current index falls outside the freshly computed result
list and `moveResultIndex` is not given a delta with
`currentSearchResultIndex + delta < -resultCount`; all remaining operations
(`onSearchStringChange`, `onSearchOptionsChange`, `onReplaceStringChange`,
`onReplace`, `reset`) preserve it unconditionally. -/
theorem indexInvariant_init_and_preserved {α : Type} (host : Host α) (op : Op α)
    (s : SearchState α) (hinv : indexInvariant s) (hsafe : opSafe host op s) :
    indexInvariant (initialSearchState (α := α)) ∧
      indexInvariant (step host op s).1 := by
  refine ⟨indexInvariant_initial, ?_⟩
  cases op with
  | performSearch active =>
      unfold opSafe at hsafe
      exact ⟨hinv.1, hsafe⟩
  | searchStringChange str =>
      exact ⟨le_rfl, lt_max_of_lt_left one_pos⟩
  | searchOptionsChange opts =>
      exact ⟨le_rfl, lt_max_of_lt_left one_pos⟩
  | replaceStringChange str =>
      exact hinv
  | moveResultIndex delta =>
      unfold opSafe at hsafe
      show indexInvariant (moveResultIndex host delta s).1
      rcases Nat.eq_zero_or_pos s.searchResults.length with hz | hp
      · have hzI : (s.searchResults.length : Int) = 0 := by exact_mod_cast hz
        unfold moveResultIndex
        rw [if_pos hzI]
        exact hinv
      · have hb := moveResultIndex_index_bounds host delta s hp hsafe
        have hf := moveResultIndex_frame host delta s
        unfold indexInvariant
        refine ⟨hb.1, ?_⟩
        rw [hf.2.2.1]
        exact lt_max_of_lt_right hb.2
  | onReplace all =>
      cases all with
      | true => exact hinv
      | false =>
          rcases eq_or_ne s.currentSearchResultIndex
            ((s.searchResults.length : Int) - 1) with he | hne2
          · have hlenpos : 0 < s.searchResults.length := by
              have h1 := hinv.1
              rw [he] at h1
              omega
            have hdelta : -(s.searchResults.length : Int) ≤
                s.currentSearchResultIndex + 1 := by
              have h1 := hinv.1
              omega
            have hstate : (step host (Op.onReplace false) s).1 =
                (moveResultIndex host 1 s).1 := by
              simp [step, onReplace, he]
            rw [hstate]
            have hb := moveResultIndex_index_bounds host 1 s hlenpos hdelta
            have hf := moveResultIndex_frame host 1 s
            unfold indexInvariant
            refine ⟨hb.1, ?_⟩
            rw [hf.2.2.1]
            exact lt_max_of_lt_right hb.2
          · have hstate : (step host (Op.onReplace false) s).1 = s := by
              simp [step, onReplace, hne2]
            rw [hstate]
            exact hinv
  | reset =>
      exact indexInvariant_initial

/-- Witness for the amended C3: a wrap-around `moveResultIndex(-1)` step from
the concrete "foo" state. -/
theorem indexInvariant_init_and_preserved_witness :
    indexInvariant (initialSearchState (α := Nat)) ∧
      indexInvariant (step hostThree (Op.moveResultIndex (-1)) stateFoo).1 :=
  indexInvariant_init_and_preserved hostThree (Op.moveResultIndex (-1)) stateFoo
    (by decide) (by decide)

/-! ### C5 — `onReplace` at the last index and `onReplace(true)`. -/

/-- The events of `moveResultIndex` never include a host `replace` call. -/
theorem moveResultIndex_no_replace_events {α : Type} (host : Host α)
    (delta : Int) (s : SearchState α) :
    (moveResultIndex host delta s).2.filter Event.isHostReplace = [] := by
  unfold moveResultIndex
  rcases eq_or_ne ((s.searchResults.length : Int)) 0 with h | h
  · rw [if_pos h]
    rfl
  · rw [if_neg h]
    cases hj : host.hasJumpToResult <;> simp [hj, Event.isHostReplace]

/-- C5: for every state with a non-empty result list: if the index is on the
last match, `onReplace(false)` issues exactly one host `replace` call, whose
target is precisely the (present) match at the current index, and afterwards
advances the index by one position, wrapping it to 0; and — at every such
state, wherever the index is — `onReplace(true)` replaces all current matches
in a single host call and leaves the state, in particular
`currentSearchResultIndex`, unchanged. -/
theorem onReplace_last_wraps_and_all_keeps_index {α : Type} (host : Host α)
    (s : SearchState α) (hne : s.searchResults ≠ []) :
    (s.currentSearchResultIndex = (s.searchResults.length : Int) - 1 →
      ((onReplace host false s).2.filter Event.isHostReplace =
          [Event.hostReplace [jsIndex s.searchResults s.currentSearchResultIndex]
            s.replaceString] ∧
        (jsIndex s.searchResults s.currentSearchResultIndex).isSome = true ∧
        (onReplace host false s).1.currentSearchResultIndex = 0)) ∧
    ((onReplace host true s).1 = s ∧
      (onReplace host true s).2 =
        [Event.hostReplace (s.searchResults.map some) s.replaceString]) := by
  have hlen : 0 < s.searchResults.length := List.length_pos.mpr hne
  have hlenI : (0 : Int) < (s.searchResults.length : Int) := by exact_mod_cast hlen
  refine ⟨fun hlast => ⟨?_, ?_, ?_⟩, rfl, rfl⟩
  · have hev : (onReplace host false s).2 =
        Event.hostReplace [jsIndex s.searchResults s.currentSearchResultIndex]
          s.replaceString :: (moveResultIndex host 1 s).2 := by
      simp [onReplace, hlast]
    rw [hev]
    simp [List.filter, Event.isHostReplace, moveResultIndex_no_replace_events]
  · unfold jsIndex
    rw [if_neg (not_lt.mpr (by omega : (0:Int) ≤ s.currentSearchResultIndex))]
    have hidx : s.currentSearchResultIndex.toNat < s.searchResults.length := by
      omega
    rw [List.get?_eq_get hidx]
    rfl
  · have hstate : (onReplace host false s).1 = (moveResultIndex host 1 s).1 := by
      simp [onReplace, hlast]
    rw [hstate]
    rw [moveResultIndex_index_emod host 1 s hlen (by omega)]
    rw [hlast]
    simp

/-- Witness for C5 at the concrete "foo" state with three matches and the
index on the last one. -/
theorem onReplace_last_wraps_and_all_keeps_index_witness :
    (((onReplace hostThree false stateFooLast).2.filter Event.isHostReplace =
        [Event.hostReplace
          [jsIndex stateFooLast.searchResults stateFooLast.currentSearchResultIndex]
          stateFooLast.replaceString] ∧
      (jsIndex stateFooLast.searchResults
        stateFooLast.currentSearchResultIndex).isSome = true ∧
      (onReplace hostThree false stateFooLast).1.currentSearchResultIndex = 0) ∧
    ((onReplace hostThree true stateFooLast).1 = stateFooLast ∧
      (onReplace hostThree true stateFooLast).2 =
        [Event.hostReplace (stateFooLast.searchResults.map some)
          stateFooLast.replaceString])) :=
  ⟨(onReplace_last_wraps_and_all_keeps_index hostThree stateFooLast
      (by decide)).1 (by decide),
   (onReplace_last_wraps_and_all_keeps_index hostThree stateFooLast
      (by decide)).2⟩

end SearchAndReplace
